import Mathlib

/-!
Shallow embedding of `src/lambda_function.py` (Amazon Lex V2 BookTrip lambda
hook).  Python dictionaries are modelled as association lists, Python `None`
as `Option.none`, uncaught Python exceptions as `Except.error`, and the
wall-clock date (`datetime.date.today()`) as an explicit `today` parameter.
-/

namespace BookTrip

/-- A calendar date (proleptic Gregorian), as produced by the date parsers. -/
structure Date where
  y : Nat
  m : Nat
  d : Nat
deriving DecidableEq, Repr

def isLeapYear (y : Nat) : Bool :=
  (y % 4 == 0 && y % 100 != 0) || y % 400 == 0

def monthLength (y m : Nat) : Nat :=
  if m = 2 then (if isLeapYear y then 29 else 28)
  else if m = 4 ∨ m = 6 ∨ m = 9 ∨ m = 11 then 30
  else 31

/-- Month/day ranges a real date library accepts (year restricted to what
Python `strptime` with a 4-digit year can produce). -/
def validYMD (y m d : Nat) : Bool :=
  1 ≤ y && y ≤ 9999 && 1 ≤ m && m ≤ 12 && 1 ≤ d && d ≤ monthLength y m

/-- Serial day number of a civil date (days since 1970-01-01), the standard
era-based conversion; used to model Python date comparison and subtraction. -/
def daysFromCivil (y m d : Int) : Int :=
  let yAdj : Int := if m ≤ 2 then y - 1 else y
  let era : Int := (if 0 ≤ yAdj then yAdj else yAdj - 399).ediv 400
  let yoe : Int := yAdj - era * 400
  let mp : Int := (m + 9).emod 12
  let doy : Int := (153 * mp + 2).ediv 5 + d - 1
  let doe : Int := yoe * 365 + yoe.ediv 4 - yoe.ediv 100 + doy
  era * 146097 + doe - 719468

def Date.toDays (dt : Date) : Int :=
  daysFromCivil (dt.y : Int) (dt.m : Int) (dt.d : Int)

/-- Inverse of `daysFromCivil`; used to model Python `date + timedelta`. -/
def civilFromDays (z0 : Int) : Date :=
  let z : Int := z0 + 719468
  let era : Int := (if 0 ≤ z then z else z - 146096).ediv 146097
  let doe : Int := z - era * 146097
  let yoe : Int := (doe - doe.ediv 1460 + doe.ediv 36524 - doe.ediv 146096).ediv 365
  let yr : Int := yoe + era * 400
  let doy : Int := doe - (365 * yoe + yoe.ediv 4 - yoe.ediv 100)
  let mp : Int := (5 * doy + 2).ediv 153
  let dd : Int := doy - (153 * mp + 2).ediv 5 + 1
  let mm : Int := if mp < 10 then mp + 3 else mp - 9
  let yy : Int := if mm ≤ 2 then yr + 1 else yr
  ⟨yy.toNat, mm.toNat, dd.toNat⟩

def padNum (width n : Nat) : String :=
  let s := toString n
  String.mk (List.replicate (width - s.length) '0') ++ s

/-- `date.strftime('%Y-%m-%d')`. -/
def dateToISO (dt : Date) : String :=
  padNum 4 dt.y ++ "-" ++ padNum 2 dt.m ++ "-" ++ padNum 2 dt.d

/-- Python `str.lower()` (basic-latin case folding, applied per character). -/
def pyLower (s : String) : String :=
  String.mk (s.data.map Char.toLower)

/-- The numeric value of a non-empty all-digit character list. -/
def digitsVal (cs : List Char) : Option Nat :=
  if cs.isEmpty then none
  else if cs.all Char.isDigit then
    some (cs.foldl (fun a c => a * 10 + (c.toNat - 48)) 0)
  else none

def parseNatDigits (s : String) : Option Nat := digitsVal s.data

/-- Python `int(s)` on a string: optional sign, then digits; `none` models the
`ValueError` raised on anything else. -/
def parseIntStr (s : String) : Option Int :=
  match s.data with
  | '-' :: rest => (digitsVal rest).map (fun n => -(n : Int))
  | cs => (digitsVal cs).map (fun n => (n : Int))

/-- Split a character list on a separator character (groups may be empty). -/
def splitOnSep (sep : Char) : List Char → List (List Char)
  | [] => [[]]
  | c :: rest =>
    let r := splitOnSep sep rest
    if c == sep then [] :: r
    else
      match r with
      | g :: gs => (c :: g) :: gs
      | [] => [[c]]

def mkDate? (ys ms ds : List Char) : Option Date :=
  match digitsVal ys, digitsVal ms, digitsVal ds with
  | some yv, some mv, some dv =>
    if ys.length ≤ 4 && ms.length ≤ 2 && ds.length ≤ 2 && validYMD yv mv dv then
      some ⟨yv, mv, dv⟩
    else none
  | _, _, _ => none

/-- `datetime.datetime.strptime(s, '%Y-%m-%d')`: strict dash-separated
year-month-day; `none` models the `ValueError` raised on any other shape. -/
def parseISO (s : String) : Option Date :=
  match splitOnSep '-' s.data with
  | [ys, ms, ds] => mkDate? ys ms ds
  | _ => none

/-- Modelled from the spec: `dateutil.parser.parse` is an external library,
"a black-box capability: parse a free-form date string into a calendar date,
failing on unparsable input", strictly more permissive than `strptime` with
`'%Y-%m-%d'`.  Realized here as accepting the strict ISO form plus the
slash-separated `YYYY/MM/DD` form that dateutil also accepts. -/
def dateutilParse (s : String) : Option Date :=
  match parseISO s with
  | some dt => some dt
  | none =>
    match splitOnSep '/' s.data with
    | [ys, ms, ds] => mkDate? ys ms ds
    | _ => none

/-- An uncaught Python exception escaping the embedded code. -/
inductive PyErr where
  | keyError
  | valueError
  | exc (msg : String)
deriving DecidableEq, Repr

/-- A Python value stored in a (session/context) attribute mapping. -/
inductive PyVal where
  | pstr (s : String)
  | pint (n : Int)
  | prat (q : ℚ)
deriving DecidableEq, Repr

/-- The `value` sub-object of a filled Lex slot (the payload's `shape` field is
read nowhere in the source and is omitted). -/
structure SlotValue where
  interpretedValue : String
  originalValue : String
  resolvedValues : List String
deriving DecidableEq, Repr

/-- A slot built from a single interpreted string, as the dispatcher does. -/
def scalarSlot (s : String) : SlotValue := ⟨s, s, [s]⟩

/-- A slots dictionary: key present with `none` models Python `slots[k] = None`,
key absent models a `KeyError` on direct access. -/
abbrev Slots := List (String × Option SlotValue)

def lookupSlot (slots : Slots) (k : String) : Option (Option SlotValue) :=
  (List.find? (fun p => p.1 == k) slots).map (fun p => p.2)

/-- `slots[k]`: direct dictionary access, `KeyError` when the key is absent. -/
def getSlotE (slots : Slots) (k : String) : Except PyErr (Option SlotValue) :=
  match lookupSlot slots k with
  | some v => .ok v
  | none => .error .keyError

/-- `slots[k] = v` on a dictionary known to be a `Slots` mapping. -/
def setSlot (slots : Slots) (k : String) (v : Option SlotValue) : Slots :=
  if (lookupSlot slots k).isSome then
    List.map (fun p => if p.1 == k then (k, v) else p) slots
  else slots ++ [(k, v)]

abbrev Attrs := List (String × PyVal)

def setAttr (l : Attrs) (k : String) (v : PyVal) : Attrs :=
  if List.any l (fun p => p.1 == k) then
    List.map (fun p => if p.1 == k then (k, v) else p) l
  else l ++ [(k, v)]

def lookupAttr (l : Attrs) (k : String) : Option PyVal :=
  (List.find? (fun p => p.1 == k) l).map (fun p => p.2)

def try_ex (value : Option SlotValue) : Option String :=
  value.map (fun v => v.interpretedValue)

/-- Python `int(s)`, raising `ValueError` on a non-numeric string. -/
def pyInt (s : String) : Except PyErr Int :=
  match parseIntStr s with
  | some n => .ok n
  | none => .error .valueError

def safe_int (n : Option String) : Except PyErr (Option Int) :=
  match n with
  | some s => (pyInt s).map some
  | none => .ok none

/-- Python truthiness of an optional string (`None` and `''` are falsy). -/
def truthyS : Option String → Bool
  | none => false
  | some s => !(s == "")

/-- Python truthiness of an optional int (`None` and `0` are falsy). -/
def truthyI : Option Int → Bool
  | none => false
  | some n => n != 0

def isvalid_car_type (car_type : String) : Bool :=
  let car_types := ["economy", "standard", "midsize", "full size", "minivan",
                    "luxury", "economico", "mediano", "lujo"]
  car_types.contains (pyLower car_type)

def isvalid_city (city : String) : Bool :=
  let valid_cities := ["nueva york", "los angeles", "chicago", "houston",
    "philadelphia", "phoenix", "san antonio", "san diego", "dallas", "san jose",
    "austin", "jacksonville", "san francisco", "indianapolis", "columbus",
    "fort worth", "charlotte", "detroit", "el paso", "seattle", "denver",
    "washington dc", "memphis", "boston", "nashville", "baltimore", "portland"]
  valid_cities.contains (pyLower city)

def isvalid_room_type (room_type : String) : Bool :=
  let room_types := ["queen", "king", "deluxe"]
  room_types.contains (pyLower room_type)

def isvalid_date (date : String) : Bool :=
  (dateutilParse date).isSome

def get_day_difference (later_date earlier_date : String) : Except PyErr Int :=
  match dateutilParse later_date, dateutilParse earlier_date with
  | some a, some b => .ok ((a.toDays - b.toDays).natAbs : Int)
  | _, _ => .error .valueError

def add_days (date : String) (number_of_days : Int) : Except PyErr String :=
  match dateutilParse date with
  | some dt => .ok (dateToISO (civilFromDays (dt.toDays + number_of_days)))
  | none => .error .valueError

/-- Sum of `ord(location.lower()[i]) - 97` over the characters of `location`,
shared by both pricing functions. -/
def base_location_cost (location : String) : Int :=
  (location.data.map (fun c => (c.toLower.toNat : Int) - 97)).sum

/-- `generate_car_price`; the Python float literal `1.10` is modelled as the
exact rational `11/10`. -/
def generate_car_price (location : String) (days : Int) (age : Int)
    (car_type : String) : ℚ :=
  let car_types := ["economy", "standard", "midsize", "full size", "minivan", "luxury"]
  let age_multiplier : ℚ := if age < 25 then 11 / 10 else 1
  let car_type := if car_types.contains car_type then car_type else "economy"
  (days : ℚ) * ((100 + (base_location_cost location : ℚ)) +
    (((car_types.findIdx (fun t => t == pyLower car_type) : Int) : ℚ) * 50) * age_multiplier)

/-- `generate_hotel_price`; `list.index` raises `ValueError` when the room type
is not in the enumeration. -/
def generate_hotel_price (location : String) (nights : Int)
    (room_type : String) : Except PyErr Int :=
  let room_types := ["queen", "king", "deluxe"]
  match room_types.findIdx? (fun t => t == pyLower room_type) with
  | some idx => .ok (nights * (100 + base_location_cost location + (100 + (idx : Int))))
  | none => .error .valueError

structure ValidationResult where
  isValid : Bool
  violatedSlot : Option String := none
  message : Option String := none
deriving DecidableEq, Repr

def build_validation_result (isvalid : Bool) (violated_slot : String)
    (message_content : String) : ValidationResult :=
  ⟨isvalid, some violated_slot, some message_content⟩

/-- The trailing driver-age and car-type checks of `validate_book_car`
(reached only when the city and date checks all pass). -/
def validate_car_tail (driver_age : Option Int) (car_type : Option String) :
    Except PyErr ValidationResult :=
  match driver_age with
  | some age =>
    if age < 18 then
      pure (build_validation_result false "DriverAge"
        "Your driver must be at least eighteen to rent a car.  Can you provide the age of a different driver?")
    else
      match car_type with
      | some ct =>
        if !(ct == "") then
          if !isvalid_car_type ct then
            pure (build_validation_result false "CarType"
              ("I did not recognize that model.  What type of car would you like to rent?  " ++
               "Popular cars are economy, midsize, or luxury"))
          else pure ⟨true, none, none⟩
        else pure (build_validation_result false "CarType" "Elicit CarType")
      | none => pure (build_validation_result false "CarType" "Elicit CarType")
  | none => pure (build_validation_result false "DriverAge" "Elicit DriverAge")

def validate_book_car (today : Date) (slots : Slots) :
    Except PyErr ValidationResult := do
  let pickup_city := try_ex (← getSlotE slots "PickUpCity")
  let pickup_date := try_ex (← getSlotE slots "PickUpDate")
  let return_date := try_ex (← getSlotE slots "ReturnDate")
  let driver_age ← safe_int (try_ex (← getSlotE slots "DriverAge"))
  let car_type := try_ex (← getSlotE slots "CarType")

  if truthyS pickup_city && !isvalid_city ((pickup_city).getD "") then
    pure (build_validation_result false "PickUpCity"
      ("We currently do not support " ++ (pickup_city).getD "" ++
       " as a valid destination.  Can you try a different city?"))
  else if truthyS pickup_date then
    if !isvalid_date ((pickup_date).getD "") then
      pure (build_validation_result false "PickUpDate"
        "I did not understand your departure date.  When would you like to pick up your car rental?")
    else
      match parseISO ((pickup_date).getD "") with
      | none => throw .valueError
      | some pd =>
        if pd.toDays ≤ today.toDays then
          pure (build_validation_result false "PickUpDate"
            "Reservations must be scheduled at least one day in advance.  Can you try a different date?")
        else if !truthyS return_date then
          pure (build_validation_result false "ReturnDate" "Elicit ReturnDate")
        else if !isvalid_date ((return_date).getD "") then
          pure (build_validation_result false "ReturnDate"
            "I did not understand your return date.  When would you like to return your car rental?")
        else
          match dateutilParse ((pickup_date).getD ""), dateutilParse ((return_date).getD "") with
          | some pdd, some rdd =>
            if pdd.toDays ≥ rdd.toDays then
              pure (build_validation_result false "ReturnDate"
                "Your return date must be after your pick up date.  Can you try a different return date?")
            else do
              let diff ← get_day_difference ((pickup_date).getD "") ((return_date).getD "")
              if diff > 30 then
                pure (build_validation_result false "ReturnDate"
                  "You can reserve a car for up to thirty days.  Can you try a different return date?")
              else
                validate_car_tail driver_age car_type
          | _, _ => throw .valueError
  else
    pure (build_validation_result false "PickUpDate" "Elicit PickUpDate")

/-- The trailing nights and room-type checks of `validate_hotel`
(reached only when the location and check-in-date checks all pass). -/
def validate_hotel_tail (nights : Option Int) (room_type : Option String) :
    ValidationResult :=
  match nights with
  | some n =>
    if n < 1 || n > 30 then
      build_validation_result false "Nights"
        "You can make a reservations from one to thirty nights.  How many nights would you like to stay for?"
    else
      match room_type with
      | some rt =>
        if !isvalid_room_type rt then
          build_validation_result false "RoomType"
            "I did not recognize that room type.  Would you like to stay in a queen, king, or deluxe room?"
        else ⟨true, none, none⟩
      | none => build_validation_result false "RoomType" "Elicit RoomType"
  | none => build_validation_result false "Nights" "Elicit Nights"

def validate_hotel (today : Date) (slots : Slots) :
    Except PyErr ValidationResult := do
  let location := try_ex (← getSlotE slots "Location")
  let checkin_date := try_ex (← getSlotE slots "CheckInDate")
  let nights ← safe_int (try_ex (← getSlotE slots "Nights"))
  let room_type := try_ex (← getSlotE slots "RoomType")

  if location.isSome && !isvalid_city (location.getD "") then
    pure (build_validation_result false "Location"
      ("We currently do not support " ++ location.getD "" ++
       " as a valid destination.  Can you try a different city?"))
  else
    match checkin_date with
    | some cd =>
      if !isvalid_date cd then
        pure (build_validation_result false "CheckInDate"
          "I did not understand your check in date.  When would you like to check in?")
      else
        match parseISO cd with
        | none => throw .valueError
        | some d =>
          if d.toDays ≤ today.toDays then
            pure (build_validation_result false "CheckInDate"
              "Reservations must be scheduled at least one day in advance.  Can you try a different date?")
          else
            pure (validate_hotel_tail nights room_type)
    | none => pure (build_validation_result false "CheckInDate" "Elicit CheckInDate")

/-! ## Turn payload and response shapes -/

structure TimeToLive where
  timeToLiveInSeconds : Int
  turnsToLive : Int
deriving DecidableEq, Repr

/-- An active context as sent by the platform (attribute values are strings). -/
structure ActiveContext where
  name : String
  contextAttributes : List (String × String)
  timeToLive : TimeToLive
deriving DecidableEq, Repr

/-- `ctx['contextAttributes'][k]`: direct access, `KeyError` when absent. -/
def getCtxAttrE (attrs : List (String × String)) (k : String) :
    Except PyErr String :=
  match (List.find? (fun p => p.1 == k) attrs).map (fun p => p.2) with
  | some v => .ok v
  | none => .error .keyError

structure Intent where
  name : String
  state : String
  confirmationState : String
  slots : Slots
deriving DecidableEq, Repr

structure SessionState where
  intent : Intent
  activeContexts : List ActiveContext
  sessionAttributes : Attrs
deriving DecidableEq, Repr

structure LexRequest where
  sessionId : String
  invocationSource : String
  sessionState : SessionState
deriving DecidableEq, Repr

/-- An active context in a returned response (attribute values may be any
Python value, e.g. the integer `Nights` the hotel handler stores). -/
structure CtxOut where
  name : String
  contextAttributes : Attrs
  timeToLive : TimeToLive
deriving DecidableEq, Repr

structure Message where
  contentType : String
  content : String
deriving DecidableEq, Repr

/-- The `dialogAction` object of a response. -/
structure DialogAction where
  type : String
  slotToElicit : Option String := none
deriving DecidableEq, Repr

/-- The intent object of a response (`initial_message` builds one without a
`slots` key, hence the `Option`). -/
structure IntentOut where
  name : String
  state : String
  confirmationState : String
  slots : Option Slots
deriving DecidableEq, Repr

def intentOut (i : Intent) : IntentOut :=
  ⟨i.name, i.state, i.confirmationState, some i.slots⟩

/-- A response payload; `none` fields model dictionary keys the builder does
not emit. -/
structure LexResponse where
  activeContexts : Option (List CtxOut)
  sessionAttributes : Option Attrs
  dialogAction : DialogAction
  intent : Option IntentOut
  messages : Option (List Message)
deriving DecidableEq, Repr

def elicit_slot (session_attributes : Attrs) (active_contexts : Attrs)
    (intent : Intent) (slot_to_elicit : String) (message : String) :
    LexResponse :=
  { activeContexts := some [⟨"intentContext", active_contexts, ⟨600, 1⟩⟩]
    sessionAttributes := some session_attributes
    dialogAction := ⟨"ElicitSlot", some slot_to_elicit⟩
    intent := some (intentOut intent)
    messages := none }

def confirm_intent (active_contexts : ActiveContext) (session_attributes : Attrs)
    (intent : Intent) (message : String) : LexResponse :=
  { activeContexts := some [⟨active_contexts.name,
      active_contexts.contextAttributes.map (fun p => (p.1, PyVal.pstr p.2)),
      active_contexts.timeToLive⟩]
    sessionAttributes := some session_attributes
    dialogAction := ⟨"ConfirmIntent", none⟩
    intent := some (intentOut intent)
    messages := none }

def close (session_attributes : Attrs) (active_contexts : Attrs)
    (fulfillment_state : String) (intent : Intent) (message : String) :
    LexResponse :=
  { activeContexts := some [⟨"intentContext", active_contexts, ⟨600, 1⟩⟩]
    sessionAttributes := some session_attributes
    dialogAction := ⟨"Close", none⟩
    intent := some (intentOut intent)
    messages := some [⟨"PlainText", message⟩] }

def delegate (session_attributes : Attrs) (active_contexts : Attrs)
    (intent : Intent) (message : String) : LexResponse :=
  { activeContexts := some [⟨"intentContext", active_contexts, ⟨600, 1⟩⟩]
    sessionAttributes := some session_attributes
    dialogAction := ⟨"Delegate", none⟩
    intent := some (intentOut intent)
    messages := some [⟨"PlainText", message⟩] }

def initial_message (intent_name : String) : LexResponse :=
  { activeContexts := none
    sessionAttributes := none
    dialogAction := ⟨"ElicitSlot",
      some (if intent_name == "BookHotel" then "Location" else "PickUpCity")⟩
    intent := some ⟨intent_name, "InProgress", "None", none⟩
    messages := none }

/-! ## Intent handlers and dispatcher -/

def book_hotel (today : Date) (intent_request : LexRequest) :
    Except PyErr (Option LexResponse) := do
  let intent := intent_request.sessionState.intent
  let session_attributes : Attrs := [("sessionId", .pstr intent_request.sessionId)]
  let active_contexts : Attrs := []
  let confirmation_status := intent.confirmationState
  let validation_result ← validate_hotel today intent.slots
  if !validation_result.isValid then
    let violated := validation_result.violatedSlot.getD ""
    let intent := { intent with slots := setSlot intent.slots violated none }
    pure (some (elicit_slot session_attributes active_contexts intent violated
      (validation_result.message.getD "")))
  else do
    let location := try_ex (← getSlotE intent.slots "Location")
    let checkin_date := try_ex (← getSlotE intent.slots "CheckInDate")
    let nights ← safe_int (try_ex (← getSlotE intent.slots "Nights"))
    let room_type := try_ex (← getSlotE intent.slots "RoomType")
    if truthyS location && truthyS checkin_date && truthyI nights &&
       truthyS room_type then do
      let active_contexts : Attrs :=
        [("ReservationType", .pstr "Hotel"),
         ("Location", .pstr (location.getD "")),
         ("RoomType", .pstr (room_type.getD "")),
         ("CheckInDate", .pstr (checkin_date.getD "")),
         ("Nights", .pint (nights.getD 0))]
      let price ← generate_hotel_price (location.getD "") (nights.getD 0)
        (room_type.getD "")
      let session_attributes :=
        setAttr session_attributes "currentReservationPrice" (.pint price)
      if confirmation_status == "None" then
        pure (some (delegate session_attributes active_contexts intent
          "Confirm hotel reservation"))
      else if confirmation_status == "Confirmed" then
        let intent := { intent with confirmationState := "Confirmed",
                                    state := "Fulfilled" }
        pure (some (close session_attributes active_contexts "Fulfilled" intent
          "Tu reservación de hotel ha quedado registrada. ¿Te puedo ayudar con algo más?"))
      else pure none
    else pure none

/-- The part of `book_car` below the dialog-code-hook block: price computation
and the confirmation-status state machine (reached either when the invocation
source is not `DialogCodeHook`, or when validation succeeded). -/
def book_car_fulfill (pickup_city pickup_date return_date driver_age
    car_type : Option String) (confirmation_status : String)
    (session_attributes : Attrs) (intent : Intent) (active_contexts : Attrs) :
    Except PyErr (Option LexResponse) := do
  if truthyS pickup_city && truthyS pickup_date && truthyS return_date &&
     truthyS driver_age && truthyS car_type then do
    let dd ← get_day_difference (pickup_date.getD "") (return_date.getD "")
    let ageO ← safe_int driver_age
    let price := generate_car_price (pickup_city.getD "") dd (ageO.getD 0)
      (car_type.getD "")
    let session_attributes :=
      setAttr session_attributes "currentReservationPrice" (.prat price)
    if confirmation_status == "Denied" then
      pure (some (delegate session_attributes active_contexts intent
        "Confirm hotel reservation"))
    else if confirmation_status == "None" then
      pure (some (delegate session_attributes active_contexts intent
        "Confirm hotel reservation"))
    else if confirmation_status == "Confirmed" then
      let intent := { intent with confirmationState := "Confirmed",
                                  state := "Fulfilled" }
      pure (some (close session_attributes active_contexts "Fulfilled" intent
        "Listo, tu reservación está completa. Ha sido un placer ayudarte. :D"))
    else pure none
  else pure none

def book_car (today : Date) (intent_request : LexRequest) :
    Except PyErr (Option LexResponse) := do
  let slots := intent_request.sessionState.intent.slots
  let pickup_city := try_ex (← getSlotE slots "PickUpCity")
  let pickup_date := try_ex (← getSlotE slots "PickUpDate")
  let return_date := try_ex (← getSlotE slots "ReturnDate")
  let driver_age := try_ex (← getSlotE slots "DriverAge")
  let car_type := try_ex (← getSlotE slots "CarType")
  let confirmation_status := intent_request.sessionState.intent.confirmationState
  let session_attributes := intent_request.sessionState.sessionAttributes
  let intent := intent_request.sessionState.intent
  let active_contexts : Attrs := []
  if intent_request.invocationSource == "DialogCodeHook" then do
    let validation_result ← validate_book_car today slots
    if !validation_result.isValid then
      if validation_result.violatedSlot == some "DriverAge" &&
         confirmation_status == "Denied" then
        let intent := { intent with slots := [] }
        pure (some (elicit_slot session_attributes active_contexts intent
          "PickUpCity" (validation_result.message.getD "")))
      else
        let violated := validation_result.violatedSlot.getD ""
        let intent := { intent with slots := setSlot slots violated none }
        pure (some (elicit_slot session_attributes active_contexts intent
          violated (validation_result.message.getD "")))
    else
      book_car_fulfill pickup_city pickup_date return_date driver_age car_type
        confirmation_status session_attributes intent active_contexts
  else
    book_car_fulfill pickup_city pickup_date return_date driver_age car_type
      confirmation_status session_attributes intent active_contexts

/-- `slots[k] if k in slots else None`: the dispatcher's guarded access. -/
def slotIfPresent (slots : Slots) (k : String) : Option SlotValue :=
  match lookupSlot slots k with
  | some v => v
  | none => none

def dispatch (today : Date) (intent_request : LexRequest) :
    Except PyErr (Option LexResponse) := do
  let slots := intent_request.sessionState.intent.slots
  let location := slotIfPresent slots "Location"
  let pickup_city := slotIfPresent slots "PickUpCity"
  let intent_name := intent_request.sessionState.intent.name
  if location.isSome || pickup_city.isSome then
    if intent_name == "BookHotel" then book_hotel today intent_request
    else if intent_name == "BookCar" then book_car today intent_request
    else throw (.exc ("Intent with name " ++ intent_name ++ " not supported"))
  else
    match intent_request.sessionState.activeContexts with
    | active_contexts :: _ => do
      let session_attributes := intent_request.sessionState.sessionAttributes
      let intent := intent_request.sessionState.intent
      let message :=
        "Indicame si la reservacion de auto es para \x7bPickUpCity\x7d, empezando \x7bPickUpDate\x7d y terminando \x7bReturnDate\x7d"
      let checkin_date ← getCtxAttrE active_contexts.contextAttributes "CheckInDate"
      let nightsStr ← getCtxAttrE active_contexts.contextAttributes "Nights"
      let nights ← pyInt nightsStr
      let return_date ← add_days checkin_date nights
      let active_contexts := { active_contexts with
        timeToLive := { active_contexts.timeToLive with turnsToLive := 20 } }
      let location ← getCtxAttrE active_contexts.contextAttributes "Location"
      let slots : Slots :=
        [("PickUpCity", some (scalarSlot location)),
         ("PickUpDate", some (scalarSlot checkin_date)),
         ("ReturnDate", some (scalarSlot return_date))]
      let intent := { intent with slots := slots }
      pure (some (confirm_intent active_contexts session_attributes intent message))
    | [] => pure (some (initial_message intent_name))

/-- `lambda_handler`: sets the process timezone (out of scope here; the
injected `today` stands for "today" in that timezone) and dispatches. -/
def lambda_handler (today : Date) (event : LexRequest) :
    Except PyErr (Option LexResponse) :=
  dispatch today event

/-! ## Specification-side pricing model and helper lemmas -/

/-- Modelled from the spec: `location_digest` "sums (lowercased character code
− 'a' code) over all characters" of the location. -/
def location_digest (location : String) : Int :=
  (location.data.map (fun c => (c.toLower.toNat : Int) - 97)).sum

/-- Modelled from the spec: `room_type_rank` "is the 0-based index of
room_type within its enumeration". -/
def room_type_rank (room_type : String) : Int :=
  ((["queen", "king", "deluxe"] : List String).findIdx
    (fun t => t == pyLower room_type) : Int)

/-- Modelled from the spec: `hotel_price(location, nights, room_type)` =
`nights × (100 + location_digest(location) + 100 + room_type_rank)`. -/
def hotel_price_spec (location : String) (nights : Int) (room_type : String) :
    Int :=
  nights * (100 + location_digest location + 100 + room_type_rank room_type)

/-- Modelled from the spec (the claim's reading): `car_type_rank` as "the
0-based index of the car type, case-insensitively, within the base six-element
enumeration, defaulting to rank 0 when the type is absent". -/
def car_type_rank_claim (car_type : String) : Int :=
  let car_types := ["economy", "standard", "midsize", "full size", "minivan", "luxury"]
  if car_types.contains (pyLower car_type) then
    (car_types.findIdx (fun t => t == pyLower car_type) : Int)
  else 0

/-- Modelled from the spec (the claim's reading): `car_price` with the
case-insensitive rank of `car_type_rank_claim`; the float literal `1.10` is
the exact rational `11/10`. -/
def car_price_claim (location : String) (days : Int) (age : Int)
    (car_type : String) : ℚ :=
  let age_multiplier : ℚ := if age < 25 then 11 / 10 else 1
  (days : ℚ) * ((100 + (base_location_cost location : ℚ)) +
    ((car_type_rank_claim car_type : ℚ) * 50) * age_multiplier)

@[simp] theorem pyBind_ok {α β : Type} (a : α) (f : α → Except PyErr β) :
    ((Except.ok a : Except PyErr α) >>= f) = f a := rfl

@[simp] theorem pyBind_error {α β : Type} (e : PyErr) (f : α → Except PyErr β) :
    ((Except.error e : Except PyErr α) >>= f) = .error e := rfl

@[simp] theorem pyPure_eq {α : Type} (a : α) : (pure a : Except PyErr α) = .ok a := rfl

@[simp] theorem pyThrow_eq {α : Type} (e : PyErr) :
    (throw e : Except PyErr α) = .error e := rfl

theorem dateutilParse_parseISO {s : String} {d : Date} (h : parseISO s = some d) :
    dateutilParse s = some d := by
  unfold dateutilParse; rw [h]

theorem isvalid_date_parseISO {s : String} {d : Date} (h : parseISO s = some d) :
    isvalid_date s = true := by
  unfold isvalid_date; rw [dateutilParse_parseISO h]; rfl

theorem parseISO_nonempty {s : String} {d : Date} (h : parseISO s = some d) :
    (s == "") = false := by
  cases he : s == ""
  · rfl
  · rw [eq_of_beq he] at h
    exact Option.noConfusion h

theorem dateutilParse_nonempty {s : String} {d : Date}
    (h : dateutilParse s = some d) : (s == "") = false := by
  cases he : s == ""
  · rfl
  · rw [eq_of_beq he] at h
    exact Option.noConfusion h

theorem isvalid_city_nonempty {s : String} (h : isvalid_city s = true) :
    (s == "") = false := by
  cases he : s == ""
  · rfl
  · rw [eq_of_beq he] at h
    exact absurd h (by decide)

theorem isvalid_room_type_nonempty {s : String}
    (h : isvalid_room_type s = true) : (s == "") = false := by
  cases he : s == ""
  · rfl
  · rw [eq_of_beq he] at h
    exact absurd h (by decide)

theorem getSlotE_of_lookup {slots : Slots} {k : String} {v : Option SlotValue}
    (h : lookupSlot slots k = some v) : getSlotE slots k = .ok v := by
  unfold getSlotE; rw [h]

/-! ## Concrete fixtures used by witnesses and counterexamples -/

def today0 : Date := ⟨2024, 1, 1⟩

def mkHotelSlots (loc cd ns rt : String) : Slots :=
  [("Location", some (scalarSlot loc)), ("CheckInDate", some (scalarSlot cd)),
   ("Nights", some (scalarSlot ns)), ("RoomType", some (scalarSlot rt))]

def mkCarSlots (pc pd rd da ct : String) : Slots :=
  [("PickUpCity", some (scalarSlot pc)), ("PickUpDate", some (scalarSlot pd)),
   ("ReturnDate", some (scalarSlot rd)), ("DriverAge", some (scalarSlot da)),
   ("CarType", some (scalarSlot ct))]

def mkHotelReq (conf : String) (slots : Slots) : LexRequest :=
  ⟨"sess-hotel", "DialogCodeHook",
   ⟨⟨"BookHotel", "InProgress", conf, slots⟩, [], [("platformKey", .pstr "platformVal")]⟩⟩

def mkCarReq (src conf : String) (slots : Slots) : LexRequest :=
  ⟨"sess-car", src,
   ⟨⟨"BookCar", "InProgress", conf, slots⟩, [], [("platformKey", .pstr "platformVal")]⟩⟩

/-- The dialog action of a returned directive, when one was returned. -/
def respDialogAction : Except PyErr (Option LexResponse) → Option DialogAction
  | .ok (some r) => some r.dialogAction
  | _ => none

/-- The `messages` field of a returned directive, when one was returned. -/
def respMessages :
    Except PyErr (Option LexResponse) → Option (Option (List Message))
  | .ok (some r) => some r.messages
  | _ => none

/-- The violated slot of a validation result, when validation did not raise. -/
def vrViolated : Except PyErr ValidationResult → Option (Option String)
  | .ok r => some r.violatedSlot
  | _ => none

/-! ## Claim C3: unsupported intent names -/

def reqUnsupportedNoSlots : LexRequest :=
  ⟨"sess-x", "DialogCodeHook", ⟨⟨"OrderPizza", "InProgress", "None", []⟩, [], []⟩⟩

def reqUnsupportedWithSlot : LexRequest :=
  ⟨"sess-y", "DialogCodeHook",
   ⟨⟨"OrderPizza", "InProgress", "None",
     mkHotelSlots "Chicago" "2024-05-02" "3" "King"⟩, [], []⟩⟩

/-- C3 counterexample: a turn whose intent name is neither BookHotel nor
BookCar but whose slot set has no non-None Location/PickUpCity entry does NOT
terminate with an error — the dispatcher returns the initial elicitation
directive, so a directive is returned for an unsupported intent name. -/
theorem c3_counterexample :
    dispatch today0 reqUnsupportedNoSlots = .ok (some (initial_message "OrderPizza")) ∧
    (initial_message "OrderPizza").dialogAction.type = "ElicitSlot" :=
  ⟨rfl, rfl⟩

/-- C3 (amended): for every turn payload whose intent name is neither
'BookHotel' nor 'BookCar' AND whose slot set carries a non-None `Location` or
`PickUpCity` entry, the invocation terminates with an unrecoverable error
(the "not supported" exception) and no directive is returned; with no such
slot entry the dispatcher instead falls through to the context-carryover or
initial-elicitation paths. -/
theorem c3_theorem (today : Date) (req : LexRequest)
    (hname1 : req.sessionState.intent.name ≠ "BookHotel")
    (hname2 : req.sessionState.intent.name ≠ "BookCar")
    (hslot : (slotIfPresent req.sessionState.intent.slots "Location").isSome = true ∨
             (slotIfPresent req.sessionState.intent.slots "PickUpCity").isSome = true) :
    dispatch today req =
      .error (.exc ("Intent with name " ++ req.sessionState.intent.name ++ " not supported")) := by
  have hn1 : (req.sessionState.intent.name == "BookHotel") = false := by
    simp [hname1]
  have hn2 : (req.sessionState.intent.name == "BookCar") = false := by
    simp [hname2]
  have hcond : ((slotIfPresent req.sessionState.intent.slots "Location").isSome ||
      (slotIfPresent req.sessionState.intent.slots "PickUpCity").isSome) = true := by
    rcases hslot with h | h
    · rw [h, Bool.true_or]
    · rw [h, Bool.or_true]
  simp [dispatch, hcond, hn1, hn2]

/-- C3 witness: the amended theorem applied at a concrete unsupported-intent
turn carrying a filled Location slot. -/
theorem c3_witness :
    dispatch today0 reqUnsupportedWithSlot =
      .error (.exc "Intent with name OrderPizza not supported") :=
  c3_theorem today0 reqUnsupportedWithSlot (by decide) (by decide) (Or.inl rfl)

/-! ## Claim C4: car-price rank lookup -/

/-- C4 counterexample: `generate_car_price` with car type `"Luxury"` (rank 5
in the claim's case-insensitive reading) prices exactly as `"economy"`,
because the membership test `car_type not in car_types` is case-sensitive;
the claimed case-insensitive price (`car_price_claim`) differs. -/
theorem c4_counterexample :
    generate_car_price "boston" 2 30 "Luxury" = generate_car_price "boston" 2 30 "economy" ∧
    generate_car_price "boston" 2 30 "Luxury" ≠ car_price_claim "boston" 2 30 "Luxury" := by
  constructor
  · rfl
  · have hb : base_location_cost "boston" = 79 := by decide
    have hrank : car_type_rank_claim "Luxury" = 5 := by decide
    have hcon : (["economy", "standard", "midsize", "full size", "minivan",
        "luxury"] : List String).contains "Luxury" = false := by decide
    have hfind : List.findIdx (fun t => t == pyLower "economy")
        ["economy", "standard", "midsize", "full size", "minivan", "luxury"] = 0 := by decide
    simp only [generate_car_price, car_price_claim, hcon]
    norm_num [hb, hrank, hfind]

/-- C4 (amended): the rank lookup of `generate_car_price` is CASE-SENSITIVE:
any car type not exactly equal to one of the six lowercase enumeration
entries (including differently-cased spellings of valid types) is priced as
'economy' (rank 0); only exact lowercase members receive their index rank. -/
theorem c4_theorem (location : String) (days age : Int) (car_type : String)
    (h : (["economy", "standard", "midsize", "full size", "minivan",
        "luxury"] : List String).contains car_type = false) :
    generate_car_price location days age car_type =
      generate_car_price location days age "economy" := by
  have hecon : (["economy", "standard", "midsize", "full size", "minivan",
      "luxury"] : List String).contains "economy" = true := by decide
  simp only [generate_car_price]
  rw [h, hecon]
  simp

/-- C4 witness: the amended theorem applied at car type `"Luxury"`, which is
absent from the case-sensitive enumeration. -/
theorem c4_witness :
    (["economy", "standard", "midsize", "full size", "minivan",
        "luxury"] : List String).contains "Luxury" = false ∧
    generate_car_price "austin" 3 22 "Luxury" =
      generate_car_price "austin" 3 22 "economy" :=
  ⟨by decide, c4_theorem "austin" 3 22 "Luxury" (by decide)⟩

/-! ## Claim C6: validation failures and ElicitSlot messages -/

def hotelReqBadNights : LexRequest :=
  mkHotelReq "None" (mkHotelSlots "Chicago" "2024-01-02" "50" "King")

/-- C6 counterexample: a hotel validation failure (Nights = 50) produces an
ElicitSlot directive naming the violated slot, but the response carries NO
message at all (`elicit_slot` drops its message argument), contradicting the
claim that the violation's guidance message is carried in the response. -/
theorem c6_counterexample :
    respDialogAction (book_hotel today0 hotelReqBadNights) =
      some ⟨"ElicitSlot", some "Nights"⟩ ∧
    respMessages (book_hotel today0 hotelReqBadNights) = some none :=
  ⟨rfl, rfl⟩

/-- C6 (amended): every hotel validation failure is surfaced as an ElicitSlot
directive naming the violated slot, but the violation's guidance message is
discarded by the response builder — the returned response carries no
messages. -/
theorem c6_theorem (today : Date) (req : LexRequest) (vr : ValidationResult)
    (hv : validate_hotel today req.sessionState.intent.slots = .ok vr)
    (hinvalid : vr.isValid = false) :
    ∃ r, book_hotel today req = .ok (some r) ∧
      r.dialogAction = ⟨"ElicitSlot", some (vr.violatedSlot.getD "")⟩ ∧
      r.messages = none := by
  refine ⟨elicit_slot [("sessionId", .pstr req.sessionId)] []
    { req.sessionState.intent with
      slots := setSlot req.sessionState.intent.slots (vr.violatedSlot.getD "") none }
    (vr.violatedSlot.getD "") (vr.message.getD ""), ?_, rfl, rfl⟩
  simp [book_hotel, hv, hinvalid]

/-- C6 witness: the amended theorem applied at the concrete invalid-Nights
hotel turn. -/
theorem c6_witness :
    ∃ r, book_hotel today0 hotelReqBadNights = .ok (some r) ∧
      r.dialogAction = ⟨"ElicitSlot", some "Nights"⟩ ∧
      r.messages = none :=
  c6_theorem today0 hotelReqBadNights
    ⟨false, some "Nights",
     some "You can make a reservations from one to thirty nights.  How many nights would you like to stay for?"⟩
    rfl rfl

/-! ## Claim C1: validator totality and date-error reporting -/

/-- `validate_hotel` with the four slot lookups and the Nights conversion
substituted: the remaining decision tree of the source function. -/
theorem validate_hotel_unfold (today : Date) (slots : Slots)
    (locS cdS nsS rtS : Option SlotValue) (nights : Option Int)
    (hLoc : lookupSlot slots "Location" = some locS)
    (hCd : lookupSlot slots "CheckInDate" = some cdS)
    (hNs : lookupSlot slots "Nights" = some nsS)
    (hRt : lookupSlot slots "RoomType" = some rtS)
    (hN : safe_int (try_ex nsS) = .ok nights) :
    validate_hotel today slots =
      (if (try_ex locS).isSome && !isvalid_city ((try_ex locS).getD "") then
        pure (build_validation_result false "Location"
          ("We currently do not support " ++ (try_ex locS).getD "" ++
           " as a valid destination.  Can you try a different city?"))
      else
        match try_ex cdS with
        | some cd =>
          if !isvalid_date cd then
            pure (build_validation_result false "CheckInDate"
              "I did not understand your check in date.  When would you like to check in?")
          else
            match parseISO cd with
            | none => throw .valueError
            | some d =>
              if d.toDays ≤ today.toDays then
                pure (build_validation_result false "CheckInDate"
                  "Reservations must be scheduled at least one day in advance.  Can you try a different date?")
              else
                pure (validate_hotel_tail nights (try_ex rtS))
        | none => pure (build_validation_result false "CheckInDate" "Elicit CheckInDate")) := by
  simp only [validate_hotel, getSlotE_of_lookup hLoc, getSlotE_of_lookup hCd,
    getSlotE_of_lookup hNs, getSlotE_of_lookup hRt, pyBind_ok, hN]
  try rfl

def hotelSlotsSlashDate : Slots := mkHotelSlots "Chicago" "2030/05/01" "3" "King"

/-- C1 counterexample: on a hotel slots mapping with every expected key, a
CheckInDate of "2030/05/01" — accepted by the locale-flexible parse but not in
YYYY-MM-DD form — makes `validate_hotel` raise (an uncaught ValueError from
the strict re-parse) instead of returning a validation result. -/
theorem c1_counterexample :
    validate_hotel today0 hotelSlotsSlashDate = .error .valueError ∧
    isvalid_date "2030/05/01" = true ∧ parseISO "2030/05/01" = none :=
  ⟨rfl, rfl, rfl⟩

/-- C1 (amended): for every hotel slots mapping containing the expected slot
keys, whose Nights value (when present) is numeric, and whose CheckInDate
value is never flexible-parseable-but-not-ISO, the validator returns a result
without raising; and (when the Location check passes) a missing or
flexible-unparsable CheckInDate is reported as a validation failure on the
CheckInDate slot.  A CheckInDate accepted by the locale-flexible parse but
not in YYYY-MM-DD form instead raises an uncaught error past the validator
boundary (see the counterexample). -/
theorem c1_theorem (today : Date) (slots : Slots)
    (locS cdS nsS rtS : Option SlotValue)
    (hLoc : lookupSlot slots "Location" = some locS)
    (hCd : lookupSlot slots "CheckInDate" = some cdS)
    (hNs : lookupSlot slots "Nights" = some nsS)
    (hRt : lookupSlot slots "RoomType" = some rtS)
    (hNights : ∀ s, try_ex nsS = some s → (parseIntStr s).isSome = true)
    (hIso : ∀ s, try_ex cdS = some s → isvalid_date s = true → (parseISO s).isSome = true) :
    (∃ r, validate_hotel today slots = .ok r) ∧
    (((try_ex locS).isSome = false ∨ isvalid_city ((try_ex locS).getD "") = true) →
      (try_ex cdS = none →
        validate_hotel today slots =
          .ok (build_validation_result false "CheckInDate" "Elicit CheckInDate")) ∧
      (∀ s, try_ex cdS = some s → isvalid_date s = false →
        validate_hotel today slots =
          .ok (build_validation_result false "CheckInDate"
            "I did not understand your check in date.  When would you like to check in?"))) := by
  obtain ⟨nights, hN⟩ : ∃ n, safe_int (try_ex nsS) = .ok n := by
    cases hns : try_ex nsS with
    | none => exact ⟨none, rfl⟩
    | some s =>
      obtain ⟨n, hn⟩ := Option.isSome_iff_exists.mp (hNights s hns)
      exact ⟨some n, by simp [safe_int, pyInt, hn, Except.map]⟩
  have hU := validate_hotel_unfold today slots locS cdS nsS rtS nights hLoc hCd hNs hRt hN
  constructor
  · rw [hU]
    split
    · exact ⟨_, rfl⟩
    · cases hcd : try_ex cdS with
      | none => exact ⟨_, rfl⟩
      | some cd =>
        by_cases hv : isvalid_date cd = true
        · obtain ⟨d, hd⟩ := Option.isSome_iff_exists.mp (hIso cd hcd hv)
          simp only [hv, hd, Bool.not_true, Bool.false_eq_true, if_false]
          split
          · exact ⟨_, rfl⟩
          · exact ⟨_, rfl⟩
        · simp only [Bool.not_eq_true] at hv
          simp only [hv, Bool.not_false, if_true]
          exact ⟨_, rfl⟩
  · intro hlocok
    have hcf : ((try_ex locS).isSome && !isvalid_city ((try_ex locS).getD "")) = false := by
      rcases hlocok with h | h
      · rw [h, Bool.false_and]
      · rw [h, Bool.not_true, Bool.and_false]
    constructor
    · intro hcd
      rw [hU, hcf]
      simp only [Bool.false_eq_true, if_false, hcd]
      rfl
    · intro s hcd hbad
      rw [hU, hcf]
      simp only [Bool.false_eq_true, if_false, hcd, hbad, Bool.not_false, if_true]
      rfl

/-- C1 witness: the amended theorem applied at a concrete well-formed hotel
slots mapping. -/
theorem c1_witness :
    (∃ r, validate_hotel today0 (mkHotelSlots "Chicago" "2024-01-02" "3" "King") = .ok r) ∧
    (((try_ex (some (scalarSlot "Chicago"))).isSome = false ∨
      isvalid_city ((try_ex (some (scalarSlot "Chicago"))).getD "") = true) →
      (try_ex (some (scalarSlot "2024-01-02")) = none →
        validate_hotel today0 (mkHotelSlots "Chicago" "2024-01-02" "3" "King") =
          .ok (build_validation_result false "CheckInDate" "Elicit CheckInDate")) ∧
      (∀ s, try_ex (some (scalarSlot "2024-01-02")) = some s → isvalid_date s = false →
        validate_hotel today0 (mkHotelSlots "Chicago" "2024-01-02" "3" "King") =
          .ok (build_validation_result false "CheckInDate"
            "I did not understand your check in date.  When would you like to check in?"))) :=
  c1_theorem today0 (mkHotelSlots "Chicago" "2024-01-02" "3" "King")
    (some (scalarSlot "Chicago")) (some (scalarSlot "2024-01-02"))
    (some (scalarSlot "3")) (some (scalarSlot "King"))
    rfl rfl rfl rfl
    (by intro s hs; cases hs; decide)
    (by intro s hs hv; cases hs; decide)


/-! ## Claims C5 and C2: car validator ordering and the DriverAge scenario -/

/-- `validate_book_car` with the five slot lookups and the DriverAge
conversion substituted: the remaining decision tree of the source function. -/

theorem validate_book_car_unfold (today : Date) (slots : Slots)
    (pcS pdS rdS daS ctS : Option SlotValue) (driver_age : Option Int)
    (h1 : lookupSlot slots "PickUpCity" = some pcS)
    (h2 : lookupSlot slots "PickUpDate" = some pdS)
    (h3 : lookupSlot slots "ReturnDate" = some rdS)
    (h4 : lookupSlot slots "DriverAge" = some daS)
    (h5 : lookupSlot slots "CarType" = some ctS)
    (hDa : safe_int (try_ex daS) = .ok driver_age) :
    validate_book_car today slots =
      (if truthyS (try_ex pcS) && !isvalid_city ((try_ex pcS).getD "") then
        pure (build_validation_result false "PickUpCity"
          ("We currently do not support " ++ (try_ex pcS).getD "" ++
           " as a valid destination.  Can you try a different city?"))
      else if truthyS (try_ex pdS) then
        if !isvalid_date ((try_ex pdS).getD "") then
          pure (build_validation_result false "PickUpDate"
            "I did not understand your departure date.  When would you like to pick up your car rental?")
        else
          match parseISO ((try_ex pdS).getD "") with
          | none => throw .valueError
          | some pd =>
            if pd.toDays ≤ today.toDays then
              pure (build_validation_result false "PickUpDate"
                "Reservations must be scheduled at least one day in advance.  Can you try a different date?")
            else if !truthyS (try_ex rdS) then
              pure (build_validation_result false "ReturnDate" "Elicit ReturnDate")
            else if !isvalid_date ((try_ex rdS).getD "") then
              pure (build_validation_result false "ReturnDate"
                "I did not understand your return date.  When would you like to return your car rental?")
            else
              match dateutilParse ((try_ex pdS).getD ""), dateutilParse ((try_ex rdS).getD "") with
              | some pdd, some rdd =>
                if pdd.toDays ≥ rdd.toDays then
                  pure (build_validation_result false "ReturnDate"
                    "Your return date must be after your pick up date.  Can you try a different return date?")
                else do
                  let diff ← get_day_difference ((try_ex pdS).getD "") ((try_ex rdS).getD "")
                  if diff > 30 then
                    pure (build_validation_result false "ReturnDate"
                      "You can reserve a car for up to thirty days.  Can you try a different return date?")
                  else
                    validate_car_tail driver_age (try_ex ctS)
              | _, _ => throw .valueError
      else
        pure (build_validation_result false "PickUpDate" "Elicit PickUpDate")) := by
  simp only [validate_book_car, getSlotE_of_lookup h1, getSlotE_of_lookup h2,
    getSlotE_of_lookup h3, getSlotE_of_lookup h4, getSlotE_of_lookup h5,
    pyBind_ok, hDa]
  try rfl

/-- C5 (amended): when the PickUpCity check passes (city absent, empty or
valid) and the pickup date is a strictly-future YYYY-MM-DD date, a car slots
mapping whose parseable return date is on or before the pickup date is
reported as a `ReturnDate` violation, regardless of the validity of the
later-checked DriverAge and CarType fields; but an invalid PickUpCity (or a
non-future pickup date) is reported instead of ReturnDate, so the claim's
"regardless of the validity of the other fields" fails for the
earlier-checked fields (see the counterexample). -/
theorem c5_theorem (today : Date) (slots : Slots)
    (pcS pdS rdS daS ctS : Option SlotValue)
    (h1 : lookupSlot slots "PickUpCity" = some pcS)
    (h2 : lookupSlot slots "PickUpDate" = some pdS)
    (h3 : lookupSlot slots "ReturnDate" = some rdS)
    (h4 : lookupSlot slots "DriverAge" = some daS)
    (h5 : lookupSlot slots "CarType" = some ctS)
    (hAge : ∀ s, try_ex daS = some s → (parseIntStr s).isSome = true)
    (hCity : truthyS (try_ex pcS) = false ∨ isvalid_city ((try_ex pcS).getD "") = true)
    (pd : String) (pdd : Date) (hpd : try_ex pdS = some pd)
    (hpdISO : parseISO pd = some pdd)
    (hfut : today.toDays < pdd.toDays)
    (rd : String) (rdd : Date) (hrd : try_ex rdS = some rd)
    (hrdP : dateutilParse rd = some rdd)
    (hle : rdd.toDays ≤ pdd.toDays) :
    validate_book_car today slots =
      .ok (build_validation_result false "ReturnDate"
        "Your return date must be after your pick up date.  Can you try a different return date?") := by
  obtain ⟨driver_age, hDa⟩ : ∃ a, safe_int (try_ex daS) = .ok a := by
    cases hda : try_ex daS with
    | none => exact ⟨none, rfl⟩
    | some s =>
      obtain ⟨n, hn⟩ := Option.isSome_iff_exists.mp (hAge s hda)
      exact ⟨some n, by simp [safe_int, pyInt, hn, Except.map]⟩
  have hU := validate_book_car_unfold today slots pcS pdS rdS daS ctS driver_age
    h1 h2 h3 h4 h5 hDa
  have hciF : (truthyS (try_ex pcS) && !isvalid_city ((try_ex pcS).getD "")) = false := by
    rcases hCity with h | h
    · rw [h, Bool.false_and]
    · rw [h, Bool.not_true, Bool.and_false]
  have hpdd : dateutilParse pd = some pdd := dateutilParse_parseISO hpdISO
  have htpd : truthyS (some pd) = true := by
    simp [truthyS, parseISO_nonempty hpdISO]
  have htrd : truthyS (some rd) = true := by
    simp [truthyS, dateutilParse_nonempty hrdP]
  have hvd : isvalid_date pd = true := isvalid_date_parseISO hpdISO
  have hvr : isvalid_date rd = true := by
    unfold isvalid_date; rw [hrdP]; rfl
  rw [hU, hciF]
  simp only [Bool.false_eq_true, if_false, hpd, Option.getD_some, htpd, if_true,
    hvd, Bool.not_true, hpdISO]
  rw [if_neg (by omega : ¬ pdd.toDays ≤ today.toDays)]
  simp only [hrd, Option.getD_some, htrd, Bool.not_true, Bool.false_eq_true,
    if_false, hvr, hpdd, hrdP]
  rw [if_pos (by omega : pdd.toDays ≥ rdd.toDays)]
  try simp only [htpd, htrd, Bool.not_true, Bool.false_eq_true, if_false, if_true]
  rfl

/-- The elicit path of `book_car`: a dialog-code-hook turn with an invalid
validation result (and no Denied/DriverAge retarget) returns an ElicitSlot
response for the violated slot, leaving the incoming session attributes
untouched. -/
theorem book_car_elicit (today : Date) (req : LexRequest) (vr : ValidationResult)
    (pcS pdS rdS daS ctS : Option SlotValue)
    (h1 : lookupSlot req.sessionState.intent.slots "PickUpCity" = some pcS)
    (h2 : lookupSlot req.sessionState.intent.slots "PickUpDate" = some pdS)
    (h3 : lookupSlot req.sessionState.intent.slots "ReturnDate" = some rdS)
    (h4 : lookupSlot req.sessionState.intent.slots "DriverAge" = some daS)
    (h5 : lookupSlot req.sessionState.intent.slots "CarType" = some ctS)
    (hsrc : req.invocationSource = "DialogCodeHook")
    (hv : validate_book_car today req.sessionState.intent.slots = .ok vr)
    (hinv : vr.isValid = false)
    (hnod : (vr.violatedSlot == some "DriverAge" &&
        req.sessionState.intent.confirmationState == "Denied") = false) :
    book_car today req = .ok (some (elicit_slot req.sessionState.sessionAttributes []
      { req.sessionState.intent with
        slots := setSlot req.sessionState.intent.slots (vr.violatedSlot.getD "") none }
      (vr.violatedSlot.getD "") (vr.message.getD ""))) := by
  simp only [book_car, getSlotE_of_lookup h1, getSlotE_of_lookup h2,
    getSlotE_of_lookup h3, getSlotE_of_lookup h4, getSlotE_of_lookup h5,
    pyBind_ok, hsrc, hv, hinv, hnod, beq_self_eq_true, if_true, Bool.not_false,
    Bool.false_eq_true, if_false]
  rfl

/-- C2 (amended): a DriverAge of 17 yields `ElicitSlot(DriverAge)` only when
the turn is a DialogCodeHook pass, the confirmation state is not Denied, and
every earlier-checked slot (PickUpCity, PickUpDate, ReturnDate and their
ordering/span constraints) passes validation; the CarType slot may still be
arbitrary.  Otherwise the earlier violation (or the Denied retarget to
PickUpCity) wins — see the counterexample. -/
theorem c2_theorem (today : Date) (req : LexRequest)
    (pcS pdS rdS daS ctS : Option SlotValue)
    (h1 : lookupSlot req.sessionState.intent.slots "PickUpCity" = some pcS)
    (h2 : lookupSlot req.sessionState.intent.slots "PickUpDate" = some pdS)
    (h3 : lookupSlot req.sessionState.intent.slots "ReturnDate" = some rdS)
    (h4 : lookupSlot req.sessionState.intent.slots "DriverAge" = some daS)
    (h5 : lookupSlot req.sessionState.intent.slots "CarType" = some ctS)
    (hsrc : req.invocationSource = "DialogCodeHook")
    (hconf : (req.sessionState.intent.confirmationState == "Denied") = false)
    (hCity : truthyS (try_ex pcS) = false ∨ isvalid_city ((try_ex pcS).getD "") = true)
    (pd : String) (pdd : Date) (hpd : try_ex pdS = some pd)
    (hpdISO : parseISO pd = some pdd)
    (hfut : today.toDays < pdd.toDays)
    (rd : String) (rdd : Date) (hrd : try_ex rdS = some rd)
    (hrdP : dateutilParse rd = some rdd)
    (hlt : pdd.toDays < rdd.toDays)
    (hspan : rdd.toDays - pdd.toDays ≤ 30)
    (da : String) (hda : try_ex daS = some da) (h17 : parseIntStr da = some 17) :
    ∃ r, book_car today req = .ok (some r) ∧
      r.dialogAction = ⟨"ElicitSlot", some "DriverAge"⟩ := by
  have hDa : safe_int (try_ex daS) = .ok (some 17) := by
    simp [safe_int, pyInt, hda, h17, Except.map]
  have hvr : validate_book_car today req.sessionState.intent.slots =
      .ok (build_validation_result false "DriverAge"
        "Your driver must be at least eighteen to rent a car.  Can you provide the age of a different driver?") := by
    have hU := validate_book_car_unfold today req.sessionState.intent.slots
      pcS pdS rdS daS ctS (some 17) h1 h2 h3 h4 h5 hDa
    have hciF : (truthyS (try_ex pcS) && !isvalid_city ((try_ex pcS).getD "")) = false := by
      rcases hCity with h | h
      · rw [h, Bool.false_and]
      · rw [h, Bool.not_true, Bool.and_false]
    have hpdd : dateutilParse pd = some pdd := dateutilParse_parseISO hpdISO
    have htpd : truthyS (some pd) = true := by
      simp [truthyS, parseISO_nonempty hpdISO]
    have htrd : truthyS (some rd) = true := by
      simp [truthyS, dateutilParse_nonempty hrdP]
    have hvd : isvalid_date pd = true := isvalid_date_parseISO hpdISO
    have hvrd : isvalid_date rd = true := by
      unfold isvalid_date; rw [hrdP]; rfl
    rw [hU, hciF]
    simp only [Bool.false_eq_true, if_false, hpd, Option.getD_some, htpd, if_true,
      hvd, Bool.not_true, hpdISO]
    rw [if_neg (by omega : ¬ pdd.toDays ≤ today.toDays)]
    simp only [hrd, Option.getD_some, htrd, Bool.not_true, Bool.false_eq_true,
      if_false, hvrd, hpdd, hrdP]
    rw [if_neg (by omega : ¬ pdd.toDays ≥ rdd.toDays)]
    have hdiff : get_day_difference pd rd = .ok ((pdd.toDays - rdd.toDays).natAbs : Int) := by
      simp [get_day_difference, hpdd, hrdP]
    simp only [hdiff, pyBind_ok]
    rw [if_neg (by omega : ¬ ((pdd.toDays - rdd.toDays).natAbs : Int) > 30)]
    rfl
  refine ⟨_, book_car_elicit today req _ pcS pdS rdS daS ctS h1 h2 h3 h4 h5 hsrc hvr rfl ?_, rfl⟩
  simp [hconf]

def carSlotsRetLePick : Slots := mkCarSlots "Atlantis" "2030-05-02" "2030-05-01" "30" "economy"

/-- C5 counterexample: both dates present and parseable with return date
before pickup date, but PickUpCity is invalid — the validator reports
PickUpCity, not ReturnDate. -/
theorem c5_counterexample :
    vrViolated (validate_book_car today0 carSlotsRetLePick) = some (some "PickUpCity") ∧
    vrViolated (validate_book_car today0 carSlotsRetLePick) ≠ some (some "ReturnDate") :=
  ⟨rfl, by decide⟩

/-- C5 witness: the amended theorem applied at a concrete slots mapping whose
return date is one day before the pickup date, with an invalid CarType. -/
theorem c5_witness :
    validate_book_car today0 (mkCarSlots "Boston" "2030-05-02" "2030-05-01" "30" "zzz") =
      .ok (build_validation_result false "ReturnDate"
        "Your return date must be after your pick up date.  Can you try a different return date?") :=
  c5_theorem today0 (mkCarSlots "Boston" "2030-05-02" "2030-05-01" "30" "zzz")
    (some (scalarSlot "Boston")) (some (scalarSlot "2030-05-02"))
    (some (scalarSlot "2030-05-01")) (some (scalarSlot "30")) (some (scalarSlot "zzz"))
    rfl rfl rfl rfl rfl
    (by intro s hs; cases hs; decide)
    (Or.inr (by decide))
    "2030-05-02" ⟨2030, 5, 2⟩ rfl (by decide) (by decide)
    "2030-05-01" ⟨2030, 5, 1⟩ rfl (by decide) (by decide)

def carReqAge17BadCity : LexRequest :=
  mkCarReq "DialogCodeHook" "None" (mkCarSlots "Atlantis" "2030-05-02" "2030-05-05" "17" "economy")

/-- C2 counterexample: a DialogCodeHook car turn whose DriverAge is 17 but
whose PickUpCity is invalid elicits PickUpCity, not DriverAge — the ElicitSlot
target is NOT DriverAge "regardless of the validity of the other slots". -/
theorem c2_counterexample :
    respDialogAction (book_car today0 carReqAge17BadCity) =
      some ⟨"ElicitSlot", some "PickUpCity"⟩ ∧
    respDialogAction (book_car today0 carReqAge17BadCity) ≠
      some ⟨"ElicitSlot", some "DriverAge"⟩ :=
  ⟨rfl, by decide⟩

/-- C2 witness: the amended theorem applied at a concrete car turn whose
earlier-checked slots are all valid and whose DriverAge is 17. -/
theorem c2_witness :
    ∃ r, book_car today0
        (mkCarReq "DialogCodeHook" "None"
          (mkCarSlots "Boston" "2030-05-02" "2030-05-05" "17" "economy")) =
        .ok (some r) ∧
      r.dialogAction = ⟨"ElicitSlot", some "DriverAge"⟩ :=
  c2_theorem today0
    (mkCarReq "DialogCodeHook" "None"
      (mkCarSlots "Boston" "2030-05-02" "2030-05-05" "17" "economy"))
    (some (scalarSlot "Boston")) (some (scalarSlot "2030-05-02"))
    (some (scalarSlot "2030-05-05")) (some (scalarSlot "17")) (some (scalarSlot "economy"))
    rfl rfl rfl rfl rfl rfl rfl
    (Or.inr (by decide))
    "2030-05-02" ⟨2030, 5, 2⟩ rfl (by decide) (by decide)
    "2030-05-05" ⟨2030, 5, 5⟩ rfl (by decide) (by decide) (by decide)
    "17" rfl (by decide)


/-! ## Claims C7 and C8: hotel pricing scenario and confirmed fulfillment -/

/-- `generate_hotel_price` agrees with the spec formula `hotel_price_spec`
(`nights × (100 + location_digest + 100 + room_type_rank)`) on every valid
room type. -/
theorem generate_hotel_price_spec (loc : String) (n : Int) (rt : String)
    (h : isvalid_room_type rt = true) :
    generate_hotel_price loc n rt = .ok (hotel_price_spec loc n rt) := by
  have h' : pyLower rt = "queen" ∨ pyLower rt = "king" ∨ pyLower rt = "deluxe" := by
    simpa [isvalid_room_type] using h
  have e0 : List.findIdx? (fun t => t == ("queen" : String))
      ["queen", "king", "deluxe"] = some 0 := by decide
  have e1 : List.findIdx? (fun t => t == ("king" : String))
      ["queen", "king", "deluxe"] = some 1 := by decide
  have e2 : List.findIdx? (fun t => t == ("deluxe" : String))
      ["queen", "king", "deluxe"] = some 2 := by decide
  have f0 : List.findIdx (fun t => t == ("queen" : String))
      ["queen", "king", "deluxe"] = 0 := by decide
  have f1 : List.findIdx (fun t => t == ("king" : String))
      ["queen", "king", "deluxe"] = 1 := by decide
  have f2 : List.findIdx (fun t => t == ("deluxe" : String))
      ["queen", "king", "deluxe"] = 2 := by decide
  rcases h' with h' | h' | h' <;>
    simp only [generate_hotel_price, hotel_price_spec, location_digest,
      base_location_cost, room_type_rank, h', e0, e1, e2, f0, f1, f2] <;>
    · congr 1
      push_cast
      ring

/-- The valid-slots path of `book_hotel`: with a valid validation result and
all four slot values present and truthy, the handler stores the price and
dispatches on the confirmation status (Delegate / Close / nothing). -/
theorem book_hotel_valid_unfold (today : Date) (req : LexRequest)
    (locS cdS nsS rtS : Option SlotValue)
    (h1 : lookupSlot req.sessionState.intent.slots "Location" = some locS)
    (h2 : lookupSlot req.sessionState.intent.slots "CheckInDate" = some cdS)
    (h3 : lookupSlot req.sessionState.intent.slots "Nights" = some nsS)
    (h4 : lookupSlot req.sessionState.intent.slots "RoomType" = some rtS)
    (vr : ValidationResult)
    (hvr : validate_hotel today req.sessionState.intent.slots = .ok vr)
    (hval : vr.isValid = true)
    (loc cd ns rt : String)
    (hloc : try_ex locS = some loc) (hcd : try_ex cdS = some cd)
    (hns : try_ex nsS = some ns) (hrt : try_ex rtS = some rt)
    (n : Int) (hn : parseIntStr ns = some n)
    (hlocne : (loc == "") = false) (hcdne : (cd == "") = false)
    (hnne : (n != 0) = true) (hrtne : (rt == "") = false)
    (price : Int) (hprice : generate_hotel_price loc n rt = .ok price) :
    book_hotel today req = .ok (
      if req.sessionState.intent.confirmationState == "None" then
        some (delegate
          [("sessionId", .pstr req.sessionId), ("currentReservationPrice", .pint price)]
          [("ReservationType", .pstr "Hotel"), ("Location", .pstr loc),
           ("RoomType", .pstr rt), ("CheckInDate", .pstr cd), ("Nights", .pint n)]
          req.sessionState.intent "Confirm hotel reservation")
      else if req.sessionState.intent.confirmationState == "Confirmed" then
        some (close
          [("sessionId", .pstr req.sessionId), ("currentReservationPrice", .pint price)]
          [("ReservationType", .pstr "Hotel"), ("Location", .pstr loc),
           ("RoomType", .pstr rt), ("CheckInDate", .pstr cd), ("Nights", .pint n)]
          "Fulfilled"
          { req.sessionState.intent with confirmationState := "Confirmed", state := "Fulfilled" }
          "Tu reservación de hotel ha quedado registrada. ¿Te puedo ayudar con algo más?")
      else none) := by
  have hsafe : safe_int (try_ex nsS) = .ok (some n) := by
    simp [safe_int, pyInt, hns, hn, Except.map]
  have hany : (([("sessionId", PyVal.pstr req.sessionId)] : Attrs).any
      fun p => p.1 == "currentReservationPrice") = false := by simp
  simp only [book_hotel, getSlotE_of_lookup h1, getSlotE_of_lookup h2,
    getSlotE_of_lookup h3, getSlotE_of_lookup h4, pyBind_ok, hvr, hval,
    Bool.not_true, Bool.false_eq_true, if_false, hloc, hcd, hsafe, hrt,
    truthyS, truthyI, hlocne, hcdne, hnne, hrtne, Bool.not_false, Bool.and_self,
    if_true, hprice, Option.getD_some, setAttr, hany, List.cons_append,
    List.nil_append, apply_ite (f := Except.ok (ε := PyErr))]
  try rfl

/-- C7: a hotel turn with slots Location=Chicago, CheckInDate a strictly
future YYYY-MM-DD date (e.g. tomorrow), Nights=3, RoomType=King and
confirmationState None yields a Delegate directive whose
sessionAttributes.currentReservationPrice equals the spec formula
`hotel_price_spec "Chicago" 3 "King"`, and `generate_hotel_price` agrees with
that formula. -/
theorem c7_theorem (today : Date) (sid src st : String) (sa : Attrs)
    (ctxs : List ActiveContext) (cd : String) (d : Date)
    (hcd : parseISO cd = some d) (hfut : today.toDays < d.toDays) :
    ∃ r, book_hotel today
        ⟨sid, src, ⟨⟨"BookHotel", st, "None", mkHotelSlots "Chicago" cd "3" "King"⟩, ctxs, sa⟩⟩ =
        .ok (some r) ∧
      r.dialogAction = ⟨"Delegate", none⟩ ∧
      lookupAttr (r.sessionAttributes.getD []) "currentReservationPrice" =
        some (.pint (hotel_price_spec "Chicago" 3 "King")) ∧
      generate_hotel_price "Chicago" 3 "King" = .ok (hotel_price_spec "Chicago" 3 "King") := by
  have hpr := generate_hotel_price_spec "Chicago" 3 "King" (by decide)
  have hvr : validate_hotel today (mkHotelSlots "Chicago" cd "3" "King") =
      .ok ⟨true, none, none⟩ := by
    have hU := validate_hotel_unfold today (mkHotelSlots "Chicago" cd "3" "King")
      (some (scalarSlot "Chicago")) (some (scalarSlot cd))
      (some (scalarSlot "3")) (some (scalarSlot "King")) (some 3)
      rfl rfl rfl rfl rfl
    rw [hU]
    have hc : ((try_ex (some (scalarSlot "Chicago"))).isSome &&
        !isvalid_city ((try_ex (some (scalarSlot "Chicago"))).getD "")) = false := by decide
    rw [hc]
    simp only [Bool.false_eq_true, if_false]
    have ht : try_ex (some (scalarSlot cd)) = some cd := rfl
    simp only [ht, isvalid_date_parseISO hcd, Bool.not_true, Bool.false_eq_true,
      if_false, hcd]
    rw [if_neg (by omega : ¬ d.toDays ≤ today.toDays)]
    rfl
  have hB := book_hotel_valid_unfold today
    ⟨sid, src, ⟨⟨"BookHotel", st, "None", mkHotelSlots "Chicago" cd "3" "King"⟩, ctxs, sa⟩⟩
    (some (scalarSlot "Chicago")) (some (scalarSlot cd))
    (some (scalarSlot "3")) (some (scalarSlot "King"))
    rfl rfl rfl rfl ⟨true, none, none⟩ hvr rfl
    "Chicago" cd "3" "King" rfl rfl rfl rfl 3 rfl
    (by decide) (parseISO_nonempty hcd) (by decide) (by decide)
    (hotel_price_spec "Chicago" 3 "King") hpr
  refine ⟨delegate
      [("sessionId", .pstr sid),
       ("currentReservationPrice", .pint (hotel_price_spec "Chicago" 3 "King"))]
      [("ReservationType", .pstr "Hotel"), ("Location", .pstr "Chicago"),
       ("RoomType", .pstr "King"), ("CheckInDate", .pstr cd), ("Nights", .pint 3)]
      ⟨"BookHotel", st, "None", mkHotelSlots "Chicago" cd "3" "King"⟩
      "Confirm hotel reservation", ?_, rfl, rfl, hpr⟩
  rw [hB]
  rfl

/-- C8: every hotel turn whose four slots are present and valid (future
YYYY-MM-DD check-in, 1-30 nights, valid city and room type) and whose
confirmationState is Confirmed yields a Close directive whose returned intent
has state Fulfilled and confirmationState Confirmed. -/
theorem c8_theorem (today : Date) (req : LexRequest)
    (locS cdS nsS rtS : Option SlotValue)
    (h1 : lookupSlot req.sessionState.intent.slots "Location" = some locS)
    (h2 : lookupSlot req.sessionState.intent.slots "CheckInDate" = some cdS)
    (h3 : lookupSlot req.sessionState.intent.slots "Nights" = some nsS)
    (h4 : lookupSlot req.sessionState.intent.slots "RoomType" = some rtS)
    (loc : String) (hloc : try_ex locS = some loc) (hlocv : isvalid_city loc = true)
    (cd : String) (d : Date) (hcd : try_ex cdS = some cd)
    (hcdISO : parseISO cd = some d) (hfut : today.toDays < d.toDays)
    (ns : String) (n : Int) (hns : try_ex nsS = some ns) (hn : parseIntStr ns = some n)
    (hn1 : 1 ≤ n) (hn30 : n ≤ 30)
    (rt : String) (hrt : try_ex rtS = some rt) (hrtv : isvalid_room_type rt = true)
    (hconf : req.sessionState.intent.confirmationState = "Confirmed") :
    ∃ r, book_hotel today req = .ok (some r) ∧
      r.dialogAction = ⟨"Close", none⟩ ∧
      r.intent = some ⟨req.sessionState.intent.name, "Fulfilled", "Confirmed",
        some req.sessionState.intent.slots⟩ := by
  have hvr : validate_hotel today req.sessionState.intent.slots =
      .ok ⟨true, none, none⟩ := by
    have hU := validate_hotel_unfold today req.sessionState.intent.slots
      locS cdS nsS rtS (some n) h1 h2 h3 h4
      (by simp [safe_int, pyInt, hns, hn, Except.map])
    rw [hU]
    have hc : ((try_ex locS).isSome && !isvalid_city ((try_ex locS).getD "")) = false := by
      rw [hloc]; simp [hlocv]
    rw [hc]
    simp only [Bool.false_eq_true, if_false, hcd, isvalid_date_parseISO hcdISO,
      Bool.not_true, hcdISO]
    rw [if_neg (by omega : ¬ d.toDays ≤ today.toDays)]
    have htail : validate_hotel_tail (some n) (try_ex rtS) = ⟨true, none, none⟩ := by
      have hb : (decide (n < 1) || decide (n > 30)) = false := by
        simp only [Bool.or_eq_false_iff, decide_eq_false_iff_not]
        exact ⟨by omega, by omega⟩
      rw [hrt]
      simp only [validate_hotel_tail, hb, Bool.false_eq_true, if_false, hrtv,
        Bool.not_true]
    rw [htail]
    rfl
  have hpr := generate_hotel_price_spec loc n rt hrtv
  have hB := book_hotel_valid_unfold today req locS cdS nsS rtS
    h1 h2 h3 h4 ⟨true, none, none⟩ hvr rfl loc cd ns rt hloc hcd hns hrt n hn
    (isvalid_city_nonempty hlocv) (parseISO_nonempty hcdISO)
    (by simp [bne]; omega) (isvalid_room_type_nonempty hrtv)
    (hotel_price_spec loc n rt) hpr
  rw [hconf] at hB
  refine ⟨close
      [("sessionId", .pstr req.sessionId),
       ("currentReservationPrice", .pint (hotel_price_spec loc n rt))]
      [("ReservationType", .pstr "Hotel"), ("Location", .pstr loc),
       ("RoomType", .pstr rt), ("CheckInDate", .pstr cd), ("Nights", .pint n)]
      "Fulfilled"
      { req.sessionState.intent with confirmationState := "Confirmed", state := "Fulfilled" }
      "Tu reservación de hotel ha quedado registrada. ¿Te puedo ayudar con algo más?",
    ?_, rfl, rfl⟩
  rw [hB]
  rfl

/-- C7 witness: the theorem applied at today = 2024-01-01 with check-in
tomorrow (2024-01-02). -/
theorem c7_witness :
    ∃ r, book_hotel today0
        ⟨"sess-hotel", "DialogCodeHook",
         ⟨⟨"BookHotel", "InProgress", "None",
           mkHotelSlots "Chicago" "2024-01-02" "3" "King"⟩, [], []⟩⟩ =
        .ok (some r) ∧
      r.dialogAction = ⟨"Delegate", none⟩ ∧
      lookupAttr (r.sessionAttributes.getD []) "currentReservationPrice" =
        some (.pint (hotel_price_spec "Chicago" 3 "King")) ∧
      generate_hotel_price "Chicago" 3 "King" =
        .ok (hotel_price_spec "Chicago" 3 "King") :=
  c7_theorem today0 "sess-hotel" "DialogCodeHook" "InProgress" [] []
    "2024-01-02" ⟨2024, 1, 2⟩ (by decide) (by decide)

/-- C8 witness: the theorem applied at a concrete fully-valid Confirmed hotel
turn. -/
theorem c8_witness :
    ∃ r, book_hotel today0
        (mkHotelReq "Confirmed" (mkHotelSlots "Chicago" "2024-01-02" "3" "King")) =
        .ok (some r) ∧
      r.dialogAction = ⟨"Close", none⟩ ∧
      r.intent = some ⟨"BookHotel", "Fulfilled", "Confirmed",
        some (mkHotelSlots "Chicago" "2024-01-02" "3" "King")⟩ :=
  c8_theorem today0 (mkHotelReq "Confirmed" (mkHotelSlots "Chicago" "2024-01-02" "3" "King"))
    (some (scalarSlot "Chicago")) (some (scalarSlot "2024-01-02"))
    (some (scalarSlot "3")) (some (scalarSlot "King"))
    rfl rfl rfl rfl
    "Chicago" rfl (by decide)
    "2024-01-02" ⟨2024, 1, 2⟩ rfl (by decide) (by decide)
    "3" 3 rfl (by decide) (by decide) (by decide)
    "King" rfl (by decide)
    rfl


/-! ## Claim C9: context-carryover suggestion -/

/-- C9: a turn whose slot set has no non-None Location or PickUpCity entry
but whose payload carries a non-empty active-context list (with Location,
CheckInDate and a numeric Nights in the head context's attributes, the
CheckInDate being parseable) yields a ConfirmIntent directive whose intent
slots are synthesized as PickUpCity=Location, PickUpDate=CheckInDate and
ReturnDate=add_days(CheckInDate, Nights), with the context's turns-to-live
reset to 20. -/
theorem c9_theorem (today : Date) (req : LexRequest)
    (hloc : slotIfPresent req.sessionState.intent.slots "Location" = none)
    (hpick : slotIfPresent req.sessionState.intent.slots "PickUpCity" = none)
    (ctx : ActiveContext) (rest : List ActiveContext)
    (hctx : req.sessionState.activeContexts = ctx :: rest)
    (cd loc ns : String)
    (hcd : getCtxAttrE ctx.contextAttributes "CheckInDate" = .ok cd)
    (hns : getCtxAttrE ctx.contextAttributes "Nights" = .ok ns)
    (hl : getCtxAttrE ctx.contextAttributes "Location" = .ok loc)
    (n : Int) (hn : parseIntStr ns = some n)
    (dt : Date) (hdt : dateutilParse cd = some dt) :
    dispatch today req = .ok (some (confirm_intent
      { ctx with timeToLive := { ctx.timeToLive with turnsToLive := 20 } }
      req.sessionState.sessionAttributes
      { req.sessionState.intent with slots :=
        [("PickUpCity", some (scalarSlot loc)),
         ("PickUpDate", some (scalarSlot cd)),
         ("ReturnDate", some (scalarSlot (dateToISO (civilFromDays (dt.toDays + n)))))] }
      "Indicame si la reservacion de auto es para \x7bPickUpCity\x7d, empezando \x7bPickUpDate\x7d y terminando \x7bReturnDate\x7d")) ∧
    add_days cd n = .ok (dateToISO (civilFromDays (dt.toDays + n))) := by
  have hadd : add_days cd n = .ok (dateToISO (civilFromDays (dt.toDays + n))) := by
    simp [add_days, hdt]
  have hpy : pyInt ns = .ok n := by simp [pyInt, hn]
  refine ⟨?_, hadd⟩
  simp only [dispatch, hloc, hpick, Option.isSome_none, Bool.or_self,
    Bool.false_eq_true, if_false, hctx, hcd, pyBind_ok, hns, hpy, hadd, hl]
  rfl

def ctxBoston : ActiveContext :=
  ⟨"hotelCtx",
   [("ReservationType", "Hotel"), ("Location", "Boston"), ("RoomType", "queen"),
    ("CheckInDate", "2024-05-01"), ("Nights", "4")],
   ⟨600, 3⟩⟩

def reqC9 : LexRequest :=
  ⟨"sess-ctx", "DialogCodeHook",
   ⟨⟨"BookCar", "InProgress", "None", [("PickUpCity", none)]⟩,
    [ctxBoston], [("a", .pstr "b")]⟩⟩

/-- C9 witness: the theorem applied at the Boston/2024-05-01/4-nights context
of the claim, with the synthesized ReturnDate 2024-05-05 and turns-to-live
20. -/
theorem c9_witness :
    dispatch today0 reqC9 = .ok (some (confirm_intent
      ⟨"hotelCtx",
       [("ReservationType", "Hotel"), ("Location", "Boston"), ("RoomType", "queen"),
        ("CheckInDate", "2024-05-01"), ("Nights", "4")],
       ⟨600, 20⟩⟩
      [("a", .pstr "b")]
      ⟨"BookCar", "InProgress", "None",
       [("PickUpCity", some (scalarSlot "Boston")),
        ("PickUpDate", some (scalarSlot "2024-05-01")),
        ("ReturnDate", some (scalarSlot "2024-05-05"))]⟩
      "Indicame si la reservacion de auto es para \x7bPickUpCity\x7d, empezando \x7bPickUpDate\x7d y terminando \x7bReturnDate\x7d")) ∧
    add_days "2024-05-01" 4 = .ok "2024-05-05" :=
  c9_theorem today0 reqC9 rfl rfl ctxBoston [] rfl
    "2024-05-01" "Boston" "4" rfl rfl rfl 4 (by decide) ⟨2024, 5, 1⟩ (by decide)

/-! ## Claim C10: session-attribute frame effects of the two handlers -/

/-- Inversion for a successful `Except` bind. -/
theorem bindOkInv {α β : Type} {x : Except PyErr α} {f : α → Except PyErr β} {b : β}
    (h : (x >>= f) = .ok b) : ∃ a, x = .ok a ∧ f a = .ok b := by
  cases x with
  | error e => rw [pyBind_error] at h; exact Except.noConfusion h
  | ok a => exact ⟨a, rfl, by rwa [pyBind_ok] at h⟩

/-- Hotel half of C10: any directive `book_hotel` returns carries exactly the
payload's sessionId (plus a price), regardless of the platform-supplied
session attributes. -/
theorem c10_hotel_part (today : Date) (req : LexRequest) (r : LexResponse)
    (h : book_hotel today req = .ok (some r)) :
    r.sessionAttributes = some [("sessionId", .pstr req.sessionId)] ∨
    ∃ p : Int, r.sessionAttributes =
      some [("sessionId", .pstr req.sessionId), ("currentReservationPrice", .pint p)] := by
  simp only [book_hotel] at h
  obtain ⟨vr, hv, h⟩ := bindOkInv h
  split at h
  · left
    have hr := Option.some.inj (Except.ok.inj h)
    rw [← hr]
    rfl
  · obtain ⟨locS, _, h⟩ := bindOkInv h
    obtain ⟨cdS, _, h⟩ := bindOkInv h
    obtain ⟨nsS, _, h⟩ := bindOkInv h
    obtain ⟨nights, _, h⟩ := bindOkInv h
    obtain ⟨rtS, _, h⟩ := bindOkInv h
    split at h
    · obtain ⟨p, hp, h⟩ := bindOkInv h
      have hattr : setAttr [("sessionId", PyVal.pstr req.sessionId)]
          "currentReservationPrice" (.pint p) =
          [("sessionId", PyVal.pstr req.sessionId),
           ("currentReservationPrice", PyVal.pint p)] := by
        simp [setAttr]
      split at h
      · right
        refine ⟨p, ?_⟩
        have hr := Option.some.inj (Except.ok.inj h)
        rw [← hr]
        simp [delegate, hattr]
      · split at h
        · right
          refine ⟨p, ?_⟩
          have hr := Option.some.inj (Except.ok.inj h)
          rw [← hr]
          simp [close, hattr]
        · exact absurd (Except.ok.inj h) (by simp)
    · exact absurd (Except.ok.inj h) (by simp)

/-- The fulfillment tail of `book_car` either returns no directive or one
whose session attributes are the incoming ones with only
currentReservationPrice added. -/
theorem c10_fulfill_part (pc pd rd da ct : Option String) (conf : String)
    (sa : Attrs) (intent : Intent) (ac : Attrs) (r : LexResponse)
    (h : book_car_fulfill pc pd rd da ct conf sa intent ac = .ok (some r)) :
    r.sessionAttributes = some sa ∨
    ∃ q : ℚ, r.sessionAttributes =
      some (setAttr sa "currentReservationPrice" (.prat q)) := by
  simp only [book_car_fulfill] at h
  split at h
  · obtain ⟨dd, _, h⟩ := bindOkInv h
    obtain ⟨ageO, _, h⟩ := bindOkInv h
    split at h
    · right
      refine ⟨generate_car_price (pc.getD "") dd (ageO.getD 0) (ct.getD ""), ?_⟩
      have hr := Option.some.inj (Except.ok.inj h)
      rw [← hr]
      rfl
    · split at h
      · right
        refine ⟨generate_car_price (pc.getD "") dd (ageO.getD 0) (ct.getD ""), ?_⟩
        have hr := Option.some.inj (Except.ok.inj h)
        rw [← hr]
        rfl
      · split at h
        · right
          refine ⟨generate_car_price (pc.getD "") dd (ageO.getD 0) (ct.getD ""), ?_⟩
          have hr := Option.some.inj (Except.ok.inj h)
          rw [← hr]
          rfl
        · exact absurd (Except.ok.inj h) (by simp)
  · exact absurd (Except.ok.inj h) (by simp)

/-- Car half of C10: any directive `book_car` returns preserves the incoming
session attributes, at most adding currentReservationPrice. -/
theorem c10_car_part (today : Date) (req : LexRequest) (r : LexResponse)
    (h : book_car today req = .ok (some r)) :
    r.sessionAttributes = some req.sessionState.sessionAttributes ∨
    ∃ q : ℚ, r.sessionAttributes =
      some (setAttr req.sessionState.sessionAttributes "currentReservationPrice" (.prat q)) := by
  simp only [book_car] at h
  obtain ⟨pcS, _, h⟩ := bindOkInv h
  obtain ⟨pdS, _, h⟩ := bindOkInv h
  obtain ⟨rdS, _, h⟩ := bindOkInv h
  obtain ⟨daS, _, h⟩ := bindOkInv h
  obtain ⟨ctS, _, h⟩ := bindOkInv h
  split at h
  · obtain ⟨vr, hv, h⟩ := bindOkInv h
    split at h
    · split at h
      · left
        have hr := Option.some.inj (Except.ok.inj h)
        rw [← hr]
        rfl
      · left
        have hr := Option.some.inj (Except.ok.inj h)
        rw [← hr]
        rfl
    · exact c10_fulfill_part _ _ _ _ _ _ _ _ _ _ h
  · exact c10_fulfill_part _ _ _ _ _ _ _ _ _ _ h

/-- C10: every directive the hotel handler returns carries sessionAttributes
consisting of exactly the payload's sessionId (plus currentReservationPrice),
discarding any platform-supplied session attributes, whereas every directive
the car handler returns preserves the incoming session attributes and at most
adds currentReservationPrice. -/
theorem c10_theorem :
    (∀ (today : Date) (req : LexRequest) (r : LexResponse),
      book_hotel today req = .ok (some r) →
      r.sessionAttributes = some [("sessionId", .pstr req.sessionId)] ∨
      ∃ p : Int, r.sessionAttributes =
        some [("sessionId", .pstr req.sessionId),
              ("currentReservationPrice", .pint p)]) ∧
    (∀ (today : Date) (req : LexRequest) (r : LexResponse),
      book_car today req = .ok (some r) →
      r.sessionAttributes = some req.sessionState.sessionAttributes ∨
      ∃ q : ℚ, r.sessionAttributes =
        some (setAttr req.sessionState.sessionAttributes
          "currentReservationPrice" (.prat q))) :=
  ⟨c10_hotel_part, c10_car_part⟩

def hotelC10Resp : LexResponse :=
  elicit_slot [("sessionId", .pstr "sess-hotel")] []
    ⟨"BookHotel", "InProgress", "None",
     setSlot (mkHotelSlots "Chicago" "2024-01-02" "50" "King") "Nights" none⟩
    "Nights"
    "You can make a reservations from one to thirty nights.  How many nights would you like to stay for?"

def carC10Resp : LexResponse :=
  elicit_slot [("platformKey", .pstr "platformVal")] []
    ⟨"BookCar", "InProgress", "None",
     setSlot (mkCarSlots "Atlantis" "2030-05-02" "2030-05-05" "17" "economy")
       "PickUpCity" none⟩
    "PickUpCity"
    "We currently do not support Atlantis as a valid destination.  Can you try a different city?"

/-- C10 witness: both halves applied at concrete elicit-path turns. -/
theorem c10_witness :
    (hotelC10Resp.sessionAttributes = some [("sessionId", .pstr "sess-hotel")] ∨
      ∃ p : Int, hotelC10Resp.sessionAttributes =
        some [("sessionId", .pstr "sess-hotel"),
              ("currentReservationPrice", .pint p)]) ∧
    (carC10Resp.sessionAttributes =
        some carReqAge17BadCity.sessionState.sessionAttributes ∨
      ∃ q : ℚ, carC10Resp.sessionAttributes =
        some (setAttr carReqAge17BadCity.sessionState.sessionAttributes
          "currentReservationPrice" (.prat q))) :=
  ⟨c10_theorem.1 today0 hotelReqBadNights hotelC10Resp rfl,
   c10_theorem.2 today0 carReqAge17BadCity carC10Resp rfl⟩

end BookTrip
